import Mathlib

/-!
Shallow embedding of the krb5kdc BPF sampler from rezolus
(src/samplers/krb5kdc/mod.rs), together with theorems checking the
natural-language specification against it.

Modelling conventions:
* Instants are `Nat`.
* The BPF kernel state is external: per-tick table reads are supplied by the
  environment as a function `String → Except String (List (String × Nat))`,
  mirroring `bpf.inner.table(name)` followed by `bpf_hash_char_to_map`
  (a map from short string keys to u64 counts, here an association list).
* The metrics sink is external: whether the k-th `record_counter` call of a
  tick succeeds is supplied by the environment (`recordOk : Nat → Bool`);
  successful calls accumulate into a list of observations.
* The `#[cfg(feature = "bpf")]` gate is an explicit boolean `featureBpf`.
* Fallible operations return `Except String _`.
-/

deriving instance DecidableEq for Except

namespace Krb5

/-- Statistic descriptor. Modelled from the spec: the `Krb5kdcStatistic` type
lives in src/samplers/krb5kdc/stat.rs, which is not part of the provided
sources; per the spec's StatisticDescriptor it carries a table name
(`bpf_table()`) and an entry key (`bpf_entry()`). -/
structure Krb5kdcStatistic where
  bpf_table : String
  bpf_entry : String
deriving DecidableEq, Repr

/-- One counter observation delivered to the metrics sink:
`record_counter(stat, Instant::now(), val)`. -/
structure Observation where
  stat : Krb5kdcStatistic
  time : Nat
  value : Nat
deriving DecidableEq, Repr

/-- Probe kind: `bcc::Uprobe` (entry) or `bcc::Uretprobe` (return). -/
inductive ProbeKind
  | entry
  | ret
deriving DecidableEq, Repr

/-- One probe attachment request (handler, target symbol, kind). -/
structure ProbeSpec where
  handler : String
  symbol : String
  kind : ProbeKind
deriving DecidableEq, Repr

/-- The three probe specs hardcoded in `Krb5kdc::init_bpf`, in source order. -/
def probeSpecs : List ProbeSpec :=
  [ ⟨"count_finish_process_as_req", "finish_process_as_req", ProbeKind.entry⟩,
    ⟨"count_finish_dispatch_cache", "finish_dispatch_cache", ProbeKind.entry⟩,
    ⟨"count_process_tgs_req", "process_tgs_req", ProbeKind.ret⟩ ]

/-- The live instrumentation handle (`Arc<Mutex<BPF>>` contents); it records
which probes attached successfully. The counter values themselves live in the
kernel and are read through the per-tick environment. -/
structure BPFHandle where
  attachedProbes : List ProbeSpec
deriving DecidableEq, Repr

/-- The `Krb5kdc` sampler struct (src/samplers/krb5kdc/mod.rs, lines 26-32). -/
structure Krb5kdcState where
  bpf : Option BPFHandle
  bpf_last : Nat
  statistics : List Krb5kdcStatistic
  path : String
deriving DecidableEq, Repr

/-- Per-tick environment: current enablement (read from configuration each
tick), the capture instant, the kernel-side table reads, and the success of
each `record_counter` call (indexed by call position within the tick). -/
structure TickEnv where
  enabled : Bool
  now : Nat
  tables : String → Except String (List (String × Nat))
  recordOk : Nat → Bool

/-- The three counter-table names read in `sample`, in source order. -/
def tableNames : List String :=
  ["counts_finish_process_as_req", "counts_finish_dispatch_cache",
   "counts_process_tgs_req"]

/-- Reads each named table in order, aborting on the first failure (the `?`
on each `table(...).map_err(...)`), and builds the `table_map`. -/
def readTablesAux (read : String → Except String (List (String × Nat))) :
    List String → Except String (List (String × List (String × Nat)))
  | [] => Except.ok []
  | t :: rest =>
    match read t with
    | Except.error e => Except.error e
    | Except.ok m =>
      match readTablesAux read rest with
      | Except.error e => Except.error e
      | Except.ok ms => Except.ok ((t, m) :: ms)

/-- Value resolved for one statistic against the snapshot:
`entry_map.get(stat.bpf_entry()).unwrap_or(&0)` when the table is present in
`table_map`, `0` when it is absent. -/
def resolveVal (tmap : List (String × List (String × Nat)))
    (st : Krb5kdcStatistic) : Nat :=
  match tmap.lookup st.bpf_table with
  | some entryMap => (entryMap.lookup st.bpf_entry).getD 0
  | none => 0

/-- The emission loop of `sample` (lines 193-204): for each statistic in
order, resolve its value and call `record_counter`; a failing call aborts the
rest of the loop and surfaces an I/O-classified error. Returns the
observations actually recorded and the loop's result. `k` is the index of the
next `record_counter` call. -/
def emitLoop (tmap : List (String × List (String × Nat))) (now : Nat)
    (recordOk : Nat → Bool) :
    List Krb5kdcStatistic → Nat → List Observation × Except String Unit
  | [], _ => ([], Except.ok ())
  | st :: rest, k =>
    let val := resolveVal tmap st
    if recordOk k then
      let r := emitLoop tmap now recordOk rest (k + 1)
      (⟨st, now, val⟩ :: r.1, r.2)
    else
      ([], Except.error "failed to record counter")

/-- One call of `Krb5kdc::sample` (lines 149-207): await the cadence delay,
check enablement, and — when the bpf feature is compiled in and a handle
exists — lock the handle, read the three tables, and emit every configured
statistic. Returns the (unchanged) sampler state, the observations emitted
this tick, and the tick's result. -/
def sample (featureBpf : Bool) (s : Krb5kdcState) (env : TickEnv) :
    Krb5kdcState × List Observation × Except String Unit :=
  if !env.enabled then (s, [], Except.ok ())
  else if featureBpf then
    match s.bpf with
    | some _ =>
      match readTablesAux env.tables tableNames with
      | Except.error e => (s, [], Except.error e)
      | Except.ok tmap =>
        (s, emitLoop tmap env.now env.recordOk s.statistics 0)
    | none => (s, [], Except.ok ())
  else (s, [], Except.ok ())

example :
    sample true ⟨some ⟨probeSpecs⟩, 0, [⟨"counts_process_tgs_req", "x"⟩], "p"⟩
      ⟨true, 7, fun _ => Except.ok [("x", 5)], fun _ => true⟩ =
    (⟨some ⟨probeSpecs⟩, 0, [⟨"counts_process_tgs_req", "x"⟩], "p"⟩,
     [⟨⟨"counts_process_tgs_req", "x"⟩, 7, 5⟩], Except.ok ()) := by decide

example :
    sample true ⟨none, 0, [⟨"counts_process_tgs_req", "x"⟩], "p"⟩
      ⟨true, 7, fun _ => Except.ok [("x", 5)], fun _ => true⟩ =
    (⟨none, 0, [⟨"counts_process_tgs_req", "x"⟩], "p"⟩, [], Except.ok ()) := by
  decide

/-- Outcome of the probe-attachment loop of `init_bpf`: which specs were
attempted (an attach call was issued), which attached successfully, which
failures were logged as warnings, and the loop's result. -/
structure AttachOutcome where
  attempted : List ProbeSpec
  attached : List ProbeSpec
  warned : List ProbeSpec
  result : Except String Unit
deriving DecidableEq, Repr

/-- The probe-attachment loop of `init_bpf` (lines 41-78): for each spec in
order, attempt the attach (`attachOk` says whether the bcc attach call
succeeds); on failure, warn and continue when `faultTolerant`, otherwise
propagate the error immediately (`Err(err)?`), skipping the remaining specs. -/
def attachLoop (faultTolerant : Bool) (attachOk : ProbeSpec → Bool) :
    List ProbeSpec → AttachOutcome
  | [] => ⟨[], [], [], Except.ok ()⟩
  | p :: rest =>
    if attachOk p then
      let r := attachLoop faultTolerant attachOk rest
      ⟨p :: r.attempted, p :: r.attached, r.warned, r.result⟩
    else if faultTolerant then
      let r := attachLoop faultTolerant attachOk rest
      ⟨p :: r.attempted, r.attached, p :: r.warned, r.result⟩
    else
      ⟨[p], [], [], Except.error "probe attach failed"⟩

/-- `Krb5kdc::init_bpf` (lines 35-84): under the bpf feature, load the BPF
program (`loadOk` says whether `bcc::BPF::new(code)` succeeds; its failure is
always propagated), run the attachment loop over the three hardcoded specs,
and on success store the handle in `self.bpf`. Without the feature it is a
no-op returning `Ok(())`. -/
def init_bpf (featureBpf faultTolerant loadOk : Bool)
    (attachOk : ProbeSpec → Bool) (s : Krb5kdcState) :
    Krb5kdcState × Except String Unit :=
  if featureBpf then
    if loadOk then
      let r := attachLoop faultTolerant attachOk probeSpecs
      match r.result with
      | Except.error e => (s, Except.error e)
      | Except.ok () => ({ s with bpf := some ⟨r.attached⟩ }, Except.ok ())
    else (s, Except.error "failed to load bpf program")
  else (s, Except.ok ())

/-- `Krb5kdc::new` (lines 90-114): build the sampler with `bpf: None` and
`bpf_last: Instant::now()` (`now0`), run `init_bpf`, and on its failure log
the error and — when not fault-tolerant — return it; otherwise return the
sampler (with whatever `init_bpf` left in `bpf`). -/
def new (featureBpf faultTolerant loadOk : Bool) (attachOk : ProbeSpec → Bool)
    (stats : List Krb5kdcStatistic) (path : String) (now0 : Nat) :
    Except String Krb5kdcState :=
  let s0 : Krb5kdcState := ⟨none, now0, stats, path⟩
  let r := init_bpf featureBpf faultTolerant loadOk attachOk s0
  match r.2 with
  | Except.error e => if !faultTolerant then Except.error e else Except.ok r.1
  | Except.ok () => Except.ok r.1

/-- `Krb5kdc::spawn` (lines 116-135): only when the sampler is enabled in
configuration at spawn time is `new` called and a looping task spawned; on
`new`'s failure no task is created (a fatal or logged error instead). Returns
the state of the spawned task's sampler, or `none` when no task exists. -/
def spawn (enabledAtSpawn featureBpf faultTolerant loadOk : Bool)
    (attachOk : ProbeSpec → Bool) (stats : List Krb5kdcStatistic)
    (path : String) (now0 : Nat) : Option Krb5kdcState :=
  if enabledAtSpawn then
    match new featureBpf faultTolerant loadOk attachOk stats path now0 with
    | Except.ok s => some s
    | Except.error _ => none
  else none

/-- The spawned task's loop (lines 120-124): `loop { let _ = sample().await; }`
run for `n` ticks; each tick's result is discarded and the loop continues
unconditionally. Returns each tick's emissions and result, in order. -/
def runTicks (featureBpf : Bool) (s : Krb5kdcState) (envs : Nat → TickEnv) :
    Nat → List (List Observation × Except String Unit)
  | 0 => []
  | n + 1 =>
    let r := sample featureBpf s (envs 0)
    r.2 :: runTicks featureBpf r.1 (fun k => envs (k + 1)) n

/-- `spawn` followed by `n` iterations of the spawned loop; when `spawn`
creates no task, no tick ever runs. -/
def spawnAndRun (enabledAtSpawn featureBpf faultTolerant loadOk : Bool)
    (attachOk : ProbeSpec → Bool) (stats : List Krb5kdcStatistic)
    (path : String) (now0 : Nat) (envs : Nat → TickEnv) (n : Nat) :
    List (List Observation × Except String Unit) :=
  match spawn enabledAtSpawn featureBpf faultTolerant loadOk attachOk stats
      path now0 with
  | some s => runTicks featureBpf s envs n
  | none => []

/-! ### Event traces

For the lock-discipline claim the tick is re-expressed as a trace of events:
the await on the cadence delay, the mutex acquisition (`bpf.lock()`), each
table read, each `record_counter` call, and the point where the mutex guard
is dropped (end of the `if let Some(ref bpf)` block, or the early return of a
`?`). -/

/-- Events of one `sample` call. -/
inductive Ev
  | awaitTick
  | lock
  | readTable (name : String)
  | unlock
  | emit (k : Nat)
deriving DecidableEq, Repr

/-- Trace of the table-read phase: each read produces a `readTable` event;
the first failing read ends the phase with an error (the `?`). -/
def readTraceAux (read : String → Except String (List (String × Nat))) :
    List String → List Ev × Except String Unit
  | [] => ([], Except.ok ())
  | t :: rest =>
    match read t with
    | Except.error e => ([Ev.readTable t], Except.error e)
    | Except.ok _ =>
      let r := readTraceAux read rest
      (Ev.readTable t :: r.1, r.2)

/-- Trace of the emission loop: each attempted `record_counter` call produces
an `emit` event; a failing call ends the loop. -/
def emitTrace (recordOk : Nat → Bool) :
    List Krb5kdcStatistic → Nat → List Ev
  | [], _ => []
  | _ :: rest, k =>
    if recordOk k then Ev.emit k :: emitTrace recordOk rest (k + 1)
    else [Ev.emit k]

/-- Event trace of one `sample` call. The mutex guard `bpf` is taken at the
top of the `if let Some` block and dropped when the block is left — whether
by the early return of a failing `?` or by reaching the end of the block
after the emission loop. -/
def sampleTrace (featureBpf : Bool) (s : Krb5kdcState) (env : TickEnv) :
    List Ev :=
  Ev.awaitTick ::
    (if !env.enabled then []
     else if featureBpf then
       match s.bpf with
       | some _ =>
         Ev.lock ::
           (let rt := readTraceAux env.tables tableNames
            match rt.2 with
            | Except.error _ => rt.1 ++ [Ev.unlock]
            | Except.ok _ =>
              rt.1 ++ emitTrace env.recordOk s.statistics 0 ++ [Ev.unlock])
       | none => []
     else [])

/-- `true` when the mutex is held just before position `i` of the trace:
more acquisitions than releases among the first `i` events. -/
def lockHeldBefore (tr : List Ev) (i : Nat) : Bool :=
  (tr.take i).count Ev.unlock < (tr.take i).count Ev.lock

example :
    sampleTrace true ⟨some ⟨probeSpecs⟩, 0, [⟨"counts_process_tgs_req", "x"⟩], "p"⟩
      ⟨true, 7, fun _ => Except.ok [("x", 5)], fun _ => true⟩ =
    [Ev.awaitTick, Ev.lock, Ev.readTable "counts_finish_process_as_req",
     Ev.readTable "counts_finish_dispatch_cache",
     Ev.readTable "counts_process_tgs_req", Ev.emit 0, Ev.unlock] := by decide

/-! ### Helper lemmas -/

/-- `sample` never modifies the sampler state. -/
theorem sample_fst (fb : Bool) (s : Krb5kdcState) (env : TickEnv) :
    (sample fb s env).1 = s := by
  cases he : env.enabled <;> cases fb <;> rcases hb : s.bpf with _ | h0 <;>
    simp [sample, he, hb]
  rcases hr : readTablesAux env.tables tableNames with e | tmap <;> simp [hr]

/-- When every `record_counter` call succeeds, the emission loop records one
observation per statistic, in order, valued by `resolveVal`. -/
theorem emitLoop_all_ok (tmap : List (String × List (String × Nat)))
    (now : Nat) (recordOk : Nat → Bool) (h : ∀ j, recordOk j = true) :
    ∀ (stats : List Krb5kdcStatistic) (k : Nat),
      emitLoop tmap now recordOk stats k =
        (stats.map (fun st => ⟨st, now, resolveVal tmap st⟩), Except.ok ())
  | [], _ => rfl
  | st :: rest, k => by
    simp [emitLoop, h k, emitLoop_all_ok tmap now recordOk h rest (k + 1)]

/-- When the first failing `record_counter` call is the `i`-th of the tick,
the emission loop records exactly the first `i` observations and errors. -/
theorem emitLoop_fail (tmap : List (String × List (String × Nat))) (now : Nat)
    (recordOk : Nat → Bool) :
    ∀ (stats : List Krb5kdcStatistic) (k i : Nat), i < stats.length →
      (∀ j, j < i → recordOk (k + j) = true) → recordOk (k + i) = false →
      emitLoop tmap now recordOk stats k =
        ((stats.take i).map (fun st => ⟨st, now, resolveVal tmap st⟩),
          Except.error "failed to record counter")
  | [], _, i, hi, _, _ => absurd hi (by simp)
  | st :: rest, k, 0, _, _, hf => by
    simp only [Nat.add_zero] at hf
    simp [emitLoop, hf]
  | st :: rest, k, i + 1, hi, hok, hf => by
    have h0 : recordOk k = true := by simpa using hok 0 (Nat.succ_pos i)
    have ih := emitLoop_fail tmap now recordOk rest (k + 1) i
      (by simpa using Nat.lt_of_succ_lt_succ hi)
      (fun j hj => by
        have h1 := hok (j + 1) (Nat.succ_lt_succ hj)
        have heq : k + (j + 1) = k + 1 + j := by omega
        rwa [heq] at h1)
      (by
        have heq : k + 1 + i = k + (i + 1) := by omega
        rwa [heq])
    simp [emitLoop, h0, ih]

/-- If some requested table fails to read, the whole snapshot errors. -/
theorem readTablesAux_error
    (read : String → Except String (List (String × Nat))) :
    ∀ ts : List String, (∃ t ∈ ts, ∃ e, read t = Except.error e) →
      ∃ e, readTablesAux read ts = Except.error e
  | [], h => absurd h (by simp)
  | t :: rest, h => by
    rcases hrt : read t with e | m
    · exact ⟨e, by simp [readTablesAux, hrt]⟩
    · obtain ⟨t0, ht0, e0, he0⟩ := h
      rcases List.mem_cons.mp ht0 with h1 | h1
      · subst h1
        rw [hrt] at he0
        exact Except.noConfusion he0
      · obtain ⟨e, he⟩ := readTablesAux_error read rest ⟨t0, h1, e0, he0⟩
        exact ⟨e, by simp [readTablesAux, hrt, he]⟩

/-- When the snapshot succeeds, the read phase's trace is exactly one
`readTable` event per requested table, in order, with no failure. -/
theorem readTraceAux_ok
    (read : String → Except String (List (String × Nat))) :
    ∀ (ts : List String) (m : List (String × List (String × Nat))),
      readTablesAux read ts = Except.ok m →
      readTraceAux read ts = (ts.map Ev.readTable, Except.ok ())
  | [], _, _ => rfl
  | t :: rest, m, h => by
    rcases hrt : read t with e | m0
    · simp only [readTablesAux, hrt] at h
      exact Except.noConfusion h
    · simp only [readTablesAux, hrt] at h
      rcases hrr : readTablesAux read rest with e1 | ms
      · rw [hrr] at h
        simp at h
      · simp [readTraceAux, hrt, readTraceAux_ok read rest ms hrr]

/-- Every event of the emission-phase trace is an `emit` event. -/
theorem emitTrace_is_emit (recordOk : Nat → Bool) :
    ∀ (stats : List Krb5kdcStatistic) (k : Nat) (e : Ev),
      e ∈ emitTrace recordOk stats k → ∃ j, e = Ev.emit j
  | [], _, _, h => absurd h (by simp [emitTrace])
  | st :: rest, k, e, h => by
    by_cases hk : recordOk k = true
    · simp only [emitTrace, hk, if_true] at h
      rcases List.mem_cons.mp h with h1 | h1
      · exact ⟨k, h1⟩
      · exact emitTrace_is_emit recordOk rest (k + 1) e h1
    · simp only [Bool.not_eq_true] at hk
      simp only [emitTrace, hk, Bool.false_eq_true, if_false,
        List.mem_singleton] at h
      exact ⟨k, h⟩

/-- Under fault tolerance the attachment loop attempts every spec, succeeds,
and warns exactly on the specs whose attach call failed. -/
theorem attachLoop_tolerant (attachOk : ProbeSpec → Bool) :
    ∀ ts : List ProbeSpec,
      (attachLoop true attachOk ts).attempted = ts ∧
      (attachLoop true attachOk ts).result = Except.ok () ∧
      (attachLoop true attachOk ts).warned = ts.filter (fun p => !attachOk p)
  | [] => ⟨rfl, rfl, rfl⟩
  | p :: rest => by
    obtain ⟨h1, h2, h3⟩ := attachLoop_tolerant attachOk rest
    by_cases hp : attachOk p = true
    · simp [attachLoop, hp, h1, h2, h3]
    · simp only [Bool.not_eq_true] at hp
      simp [attachLoop, hp, h1, h2, h3]

/-- Without fault tolerance, any failing spec makes the attachment loop
error. -/
theorem attachLoop_intolerant (attachOk : ProbeSpec → Bool) :
    ∀ ts : List ProbeSpec, (∃ p ∈ ts, attachOk p = false) →
      (attachLoop false attachOk ts).result =
        Except.error "probe attach failed"
  | [], h => absurd h (by simp)
  | p :: rest, h => by
    by_cases hp : attachOk p = true
    · obtain ⟨p0, hp0, hfail⟩ := h
      rcases List.mem_cons.mp hp0 with h1 | h1
      · subst h1
        rw [hp] at hfail
        exact Bool.noConfusion hfail
      · have ih := attachLoop_intolerant attachOk rest ⟨p0, h1, hfail⟩
        simp [attachLoop, hp, ih]
    · simp only [Bool.not_eq_true] at hp
      simp [attachLoop, hp]

/-- The spawned loop runs every scheduled tick: `n` scheduled ticks yield
`n` per-tick results, whatever each tick's outcome. -/
theorem runTicks_length (fb : Bool) :
    ∀ (n : Nat) (s : Krb5kdcState) (envs : Nat → TickEnv),
      (runTicks fb s envs n).length = n
  | 0, _, _ => rfl
  | n + 1, s, envs => by
    simp [runTicks, runTicks_length fb n]

/-! ### Concrete inputs used by witnesses and counterexamples -/

/-- Two descriptors: one present in the example snapshot, one absent. -/
def exStats : List Krb5kdcStatistic :=
  [⟨"counts_finish_process_as_req", "x"⟩, ⟨"counts_missing_table", "y"⟩]

/-- Sampler state with a live handle and the two example statistics. -/
def exState : Krb5kdcState := ⟨some ⟨probeSpecs⟩, 5, exStats, "/usr/bin/krb5kdc"⟩

/-- Kernel-side reads for the example: the first table holds one entry
`x ↦ 5`, the other two tables read back empty. -/
def exRead : String → Except String (List (String × Nat)) := fun t =>
  if t = "counts_finish_process_as_req" then Except.ok [("x", 5)]
  else Except.ok []

/-- Healthy tick environment: enabled, instant 7, reads succeed, sink
accepts every call. -/
def exEnv : TickEnv := ⟨true, 7, exRead, fun _ => true⟩

/-- The snapshot that `exRead` produces for the three hardcoded tables. -/
def exTmap : List (String × List (String × Nat)) :=
  [("counts_finish_process_as_req", [("x", 5)]),
   ("counts_finish_dispatch_cache", []),
   ("counts_process_tgs_req", [])]

example : readTablesAux exRead tableNames = Except.ok exTmap := by decide

/-! ### Claims -/

/-- C1: for every counter-table snapshot and every configured statistic
list, one enabled tick with a live handle and a metrics sink accepting every
call emits exactly one observation per statistic, in configuration order,
each valued `snapshot[table][key]` when table and key are both present and
`0` when either is absent, and the tick returns success. -/
theorem tick_emits_each_statistic_resolved (s : Krb5kdcState) (env : TickEnv)
    (h0 : BPFHandle) (tmap : List (String × List (String × Nat)))
    (hen : env.enabled = true) (hb : s.bpf = some h0)
    (hrd : readTablesAux env.tables tableNames = Except.ok tmap)
    (hrec : ∀ j, env.recordOk j = true) :
    (sample true s env).2.1 =
      s.statistics.map (fun st => ⟨st, env.now, resolveVal tmap st⟩) ∧
    (sample true s env).2.1.length = s.statistics.length ∧
    (sample true s env).2.2 = Except.ok () := by
  have hs : sample true s env =
      (s, emitLoop tmap env.now env.recordOk s.statistics 0) := by
    simp [sample, hen, hb, hrd]
  rw [hs, emitLoop_all_ok tmap env.now env.recordOk hrec s.statistics 0]
  simp

/-- Witness for C1: on the concrete snapshot, the present entry resolves to
`5` and the absent table resolves to `0`, one observation each, in order. -/
theorem tick_emits_each_statistic_resolved_witness :
    (sample true exState exEnv).2.1 =
      exState.statistics.map
        (fun st => ⟨st, exEnv.now, resolveVal exTmap st⟩) ∧
    (sample true exState exEnv).2.1.length = exState.statistics.length ∧
    (sample true exState exEnv).2.2 = Except.ok () :=
  tick_emits_each_statistic_resolved exState exEnv ⟨probeSpecs⟩ exTmap rfl rfl
    (by decide) (fun _ => rfl)

/-- C2 counterexample: with `bpf = None` and the sampler enabled, the tick
does not emit one zero-valued observation per configured statistic — it
emits nothing (the whole `if let Some(ref bpf)` block is skipped). -/
theorem no_handle_zero_emission_cex :
    ¬ ((sample true ⟨none, 5, exStats, "/usr/bin/krb5kdc"⟩ exEnv).2.1 =
        [⟨⟨"counts_finish_process_as_req", "x"⟩, 7, 0⟩,
         ⟨⟨"counts_missing_table", "y"⟩, 7, 0⟩]) := by decide

/-- C2 (amended): when no `InstrumentationHandle` exists (attachment never
populated `bpf`, or the bpf feature is compiled out), an enabled tick emits
no observations at all and returns success — attachment failure degrades to
silence, not to zero-valued observations. -/
theorem no_handle_emits_nothing (fb : Bool) (s : Krb5kdcState) (env : TickEnv)
    (h : s.bpf = none ∨ fb = false) :
    (sample fb s env).2.1 = [] ∧ (sample fb s env).2.2 = Except.ok () := by
  rcases h with h | h
  · cases he : env.enabled <;> cases fb <;> simp [sample, he, h]
  · subst h
    cases he : env.enabled <;> simp [sample, he]

/-- Witness for C2 (amended): a handle-less sampler with two configured
statistics emits nothing on an enabled tick. -/
theorem no_handle_emits_nothing_witness :
    (sample true ⟨none, 5, exStats, "/usr/bin/krb5kdc"⟩ exEnv).2.1 = [] ∧
    (sample true ⟨none, 5, exStats, "/usr/bin/krb5kdc"⟩ exEnv).2.2 =
      Except.ok () :=
  no_handle_emits_nothing true ⟨none, 5, exStats, "/usr/bin/krb5kdc"⟩ exEnv
    (Or.inl rfl)

/-- C3: if reading any one of the three counter tables fails, the tick's
read phase aborts with an I/O-classified error and no observations at all
are emitted that tick — not even for tables read successfully before the
failure. -/
theorem table_read_failure_aborts_tick (s : Krb5kdcState) (env : TickEnv)
    (h0 : BPFHandle) (hen : env.enabled = true) (hb : s.bpf = some h0)
    (hrd : ∃ t ∈ tableNames, ∃ e, env.tables t = Except.error e) :
    (sample true s env).2.1 = [] ∧
    ∃ e, (sample true s env).2.2 = Except.error e := by
  obtain ⟨e, he⟩ := readTablesAux_error env.tables tableNames hrd
  refine ⟨?_, e, ?_⟩ <;> simp [sample, hen, hb, he]

/-- Reads for the C3 witness: the first table reads back non-empty, the
second fails, the third would succeed. -/
def failRead : String → Except String (List (String × Nat)) := fun t =>
  if t = "counts_finish_dispatch_cache" then Except.error "io error"
  else Except.ok [("x", 5)]

/-- Tick environment whose second table read fails. -/
def failEnv : TickEnv := ⟨true, 7, failRead, fun _ => true⟩

/-- Witness for C3: with the second table failing (after a successful first
read), the tick emits nothing and surfaces an error. -/
theorem table_read_failure_aborts_tick_witness :
    (sample true exState failEnv).2.1 = [] ∧
    ∃ e, (sample true exState failEnv).2.2 = Except.error e :=
  table_read_failure_aborts_tick exState failEnv ⟨probeSpecs⟩ rfl rfl
    ⟨"counts_finish_dispatch_cache", by decide, "io error", rfl⟩

/-- C4: with fault tolerance on and the program loaded, every probe spec is
attempted whatever the per-probe failures; each failure is logged as a
warning; the sampler still constructs with a live handle; and an enabled
tick with a healthy snapshot and sink still emits the complete set of
statistics. -/
theorem fault_tolerant_attach_degrades (attachOk : ProbeSpec → Bool)
    (stats : List Krb5kdcStatistic) (path : String) (now0 : Nat)
    (env : TickEnv) (hen : env.enabled = true)
    (hrd : ∃ tmap, readTablesAux env.tables tableNames = Except.ok tmap)
    (hrec : ∀ j, env.recordOk j = true) :
    (attachLoop true attachOk probeSpecs).attempted = probeSpecs ∧
    (attachLoop true attachOk probeSpecs).warned =
      probeSpecs.filter (fun p => !attachOk p) ∧
    ∃ s, new true true true attachOk stats path now0 = Except.ok s ∧
      s.bpf.isSome = true ∧
      (sample true s env).2.1.length = stats.length := by
  obtain ⟨ha, hr, hw⟩ := attachLoop_tolerant attachOk probeSpecs
  obtain ⟨tmap, htm⟩ := hrd
  refine ⟨ha, hw, ⟨some ⟨(attachLoop true attachOk probeSpecs).attached⟩,
    now0, stats, path⟩, ?_, rfl, ?_⟩
  · simp [new, init_bpf, hr]
  · have hs : sample true
        ⟨some ⟨(attachLoop true attachOk probeSpecs).attached⟩, now0, stats,
          path⟩ env =
        (⟨some ⟨(attachLoop true attachOk probeSpecs).attached⟩, now0, stats,
          path⟩, emitLoop tmap env.now env.recordOk stats 0) := by
      simp [sample, hen, htm]
    rw [hs, emitLoop_all_ok tmap env.now env.recordOk hrec stats 0]
    simp

/-- Attach behavior for witnesses: the return probe on `process_tgs_req`
fails to attach, the two entry probes succeed. -/
def exAttachOk : ProbeSpec → Bool := fun p =>
  !(p.symbol = "process_tgs_req")

/-- Witness for C4: with one failing probe under fault tolerance, all three
specs are attempted, the failing one is warned, construction succeeds with a
handle, and a tick emits both configured statistics. -/
theorem fault_tolerant_attach_degrades_witness :
    (attachLoop true exAttachOk probeSpecs).attempted = probeSpecs ∧
    (attachLoop true exAttachOk probeSpecs).warned =
      probeSpecs.filter (fun p => !exAttachOk p) ∧
    ∃ s, new true true true exAttachOk exStats "/usr/bin/krb5kdc" 5 =
        Except.ok s ∧
      s.bpf.isSome = true ∧
      (sample true s exEnv).2.1.length = exStats.length :=
  fault_tolerant_attach_degrades exAttachOk exStats "/usr/bin/krb5kdc" 5 exEnv
    rfl ⟨exTmap, by decide⟩ (fun _ => rfl)

/-- C5: without fault tolerance, a probe attachment failure makes `new`
return an error instead of a sampler, so `spawn` creates no task and no
sample tick ever runs for that sampler. -/
theorem intolerant_attach_failure_no_ticks (attachOk : ProbeSpec → Bool)
    (stats : List Krb5kdcStatistic) (path : String) (now0 : Nat)
    (p : ProbeSpec) (hp : p ∈ probeSpecs) (hfail : attachOk p = false) :
    new true false true attachOk stats path now0 =
      Except.error "probe attach failed" ∧
    ∀ (enabledAtSpawn : Bool) (envs : Nat → TickEnv) (n : Nat),
      spawnAndRun enabledAtSpawn true false true attachOk stats path now0
        envs n = [] := by
  have hr := attachLoop_intolerant attachOk probeSpecs ⟨p, hp, hfail⟩
  have hnew : new true false true attachOk stats path now0 =
      Except.error "probe attach failed" := by
    simp [new, init_bpf, hr]
  refine ⟨hnew, fun es envs n => ?_⟩
  cases es <;> simp [spawnAndRun, spawn, hnew]

/-- Witness for C5: the failing return probe, without fault tolerance, keeps
the sampler from constructing and no tick ever runs. -/
theorem intolerant_attach_failure_no_ticks_witness :
    new true false true exAttachOk exStats "/usr/bin/krb5kdc" 5 =
      Except.error "probe attach failed" ∧
    ∀ (enabledAtSpawn : Bool) (envs : Nat → TickEnv) (n : Nat),
      spawnAndRun enabledAtSpawn true false true exAttachOk exStats
        "/usr/bin/krb5kdc" 5 envs n = [] :=
  intolerant_attach_failure_no_ticks exAttachOk exStats "/usr/bin/krb5kdc" 5
    ⟨"count_process_tgs_req", "process_tgs_req", ProbeKind.ret⟩
    (by decide) (by decide)

/-- C6 counterexample: with fault tolerance off and an attach that fails on
the first spec, only the first spec is attempted — probe failures are not
independent in every configuration. -/
theorem probe_failures_independent_cex :
    ¬ ((attachLoop false (fun _ => false) probeSpecs).attempted =
        probeSpecs) := by decide

/-- C6 (amended): per-ProbeSpec attachment failures are independent when
fault tolerance is on — every spec is attempted whatever the per-probe
failures; with fault tolerance off, the first failure skips the rest. -/
theorem probe_failures_independent_tolerant (attachOk : ProbeSpec → Bool) :
    (attachLoop true attachOk probeSpecs).attempted = probeSpecs :=
  (attachLoop_tolerant attachOk probeSpecs).1

/-- C7: a failing `record_counter` call aborts the remaining emissions of
that tick (only the earlier observations were recorded) and surfaces an
I/O-classified error, while the spawned loop is not terminated: every
scheduled tick executes, whatever the previous ticks' outcomes. -/
theorem emit_failure_aborts_tick_not_loop (s : Krb5kdcState) (env : TickEnv)
    (h0 : BPFHandle) (tmap : List (String × List (String × Nat))) (i : Nat)
    (hen : env.enabled = true) (hb : s.bpf = some h0)
    (hrd : readTablesAux env.tables tableNames = Except.ok tmap)
    (hi : i < s.statistics.length)
    (hok : ∀ j, j < i → env.recordOk j = true)
    (hfail : env.recordOk i = false) :
    (sample true s env).2.1 =
      (s.statistics.take i).map
        (fun st => ⟨st, env.now, resolveVal tmap st⟩) ∧
    (sample true s env).2.2 = Except.error "failed to record counter" ∧
    ∀ (fb : Bool) (s0 : Krb5kdcState) (envs : Nat → TickEnv) (n : Nat),
      (runTicks fb s0 envs n).length = n := by
  have hel := emitLoop_fail tmap env.now env.recordOk s.statistics 0 i hi
    (fun j hj => by simpa using hok j hj) (by simpa using hfail)
  have hs : sample true s env =
      (s, emitLoop tmap env.now env.recordOk s.statistics 0) := by
    simp [sample, hen, hb, hrd]
  rw [hs, hel]
  exact ⟨rfl, rfl, fun fb s0 envs n => runTicks_length fb n s0 envs⟩

/-- Tick environment whose metrics sink rejects every call after the first:
only call index `0` succeeds. -/
def failSinkEnv : TickEnv := ⟨true, 7, exRead, fun k => k == 0⟩

/-- Witness for C7: with the second `record_counter` call failing, only the
first observation is recorded, the tick errors, and the loop still runs
every scheduled tick. -/
theorem emit_failure_aborts_tick_not_loop_witness :
    (sample true exState failSinkEnv).2.1 =
      (exState.statistics.take 1).map
        (fun st => ⟨st, failSinkEnv.now, resolveVal exTmap st⟩) ∧
    (sample true exState failSinkEnv).2.2 =
      Except.error "failed to record counter" ∧
    ∀ (fb : Bool) (s0 : Krb5kdcState) (envs : Nat → TickEnv) (n : Nat),
      (runTicks fb s0 envs n).length = n :=
  emit_failure_aborts_tick_not_loop exState failSinkEnv ⟨probeSpecs⟩ exTmap 1
    rfl rfl (by decide) (by decide) (by decide) (by decide)

/-- C8 counterexample: on a concrete enabled tick with a live handle and a
successful snapshot, the `emit` event at position 5 of the trace happens
with the mutex still held — the lock is not released before observations are
recorded (the guard is dropped only at the end of the `if let` block). -/
theorem lock_released_before_emit_cex :
    ¬ (∀ (i k : Nat),
        (sampleTrace true exState exEnv)[i]? = some (Ev.emit k) →
        lockHeldBefore (sampleTrace true exState exEnv) i = false) := by
  intro h
  have h5 := h 5 0 (by decide)
  exact absurd h5 (by decide)

/-- C8 (amended): in an enabled tick with a live handle and a successful
snapshot, the await (the tick's only suspension point) is the first event —
executed with the lock not held — then the lock is acquired and released
only at the very end of the block, after all table reads and after every
emission: the read and emit phases both run under the lock. -/
theorem lock_held_across_read_and_emit (s : Krb5kdcState) (env : TickEnv)
    (h0 : BPFHandle) (hen : env.enabled = true) (hb : s.bpf = some h0)
    (hrd : ∃ tmap, readTablesAux env.tables tableNames = Except.ok tmap) :
    sampleTrace true s env =
      Ev.awaitTick :: Ev.lock ::
        (tableNames.map Ev.readTable ++
         emitTrace env.recordOk s.statistics 0 ++ [Ev.unlock]) ∧
    (∀ e ∈ emitTrace env.recordOk s.statistics 0, ∃ j, e = Ev.emit j) ∧
    lockHeldBefore (sampleTrace true s env) 0 = false := by
  obtain ⟨tmap, htm⟩ := hrd
  have hrt := readTraceAux_ok env.tables tableNames tmap htm
  refine ⟨?_, fun e he => emitTrace_is_emit env.recordOk s.statistics 0 e he,
    rfl⟩
  simp [sampleTrace, hen, hb, hrt]

/-- Witness for C8 (amended): the concrete tick's trace is the await, the
lock, the three reads, the emissions, and the unlock last. -/
theorem lock_held_across_read_and_emit_witness :
    sampleTrace true exState exEnv =
      Ev.awaitTick :: Ev.lock ::
        (tableNames.map Ev.readTable ++
         emitTrace exEnv.recordOk exState.statistics 0 ++ [Ev.unlock]) ∧
    (∀ e ∈ emitTrace exEnv.recordOk exState.statistics 0,
      ∃ j, e = Ev.emit j) ∧
    lockHeldBefore (sampleTrace true exState exEnv) 0 = false :=
  lock_held_across_read_and_emit exState exEnv ⟨probeSpecs⟩ rfl rfl
    ⟨exTmap, by decide⟩

/-- C9 counterexample: a tick at capture instant 99 leaves `bpf_last` at its
construction-time value 5 — `sample` never writes the shared last-sample
timestamp. -/
theorem bpf_last_updated_each_tick_cex :
    ¬ ((sample true exState ⟨true, 99, exRead, fun _ => true⟩).1.bpf_last =
        99) := by decide

/-- C9 (amended): `bpf_last` is set once at construction and never modified
by `sample`; every tick leaves it unchanged. -/
theorem bpf_last_never_updated (fb : Bool) (s : Krb5kdcState)
    (env : TickEnv) :
    (sample fb s env).1.bpf_last = s.bpf_last := by
  rw [sample_fst]

/-- C10: a sampler disabled in configuration at spawn time gets no task at
all, so no tick ever runs, whatever the per-tick enablement later says; the
per-tick enablement check only suppresses individual ticks of a task that
was spawned enabled. -/
theorem disabled_at_spawn_no_task (es fb ft lo : Bool)
    (attachOk : ProbeSpec → Bool) (stats : List Krb5kdcStatistic)
    (path : String) (now0 : Nat) (h : es = false) :
    spawn es fb ft lo attachOk stats path now0 = none ∧
    (∀ (envs : Nat → TickEnv) (n : Nat),
      spawnAndRun es fb ft lo attachOk stats path now0 envs n = []) ∧
    (∀ (s : Krb5kdcState) (env : TickEnv), env.enabled = false →
      (sample fb s env).2.1 = [] ∧ (sample fb s env).2.2 = Except.ok ()) := by
  subst h
  refine ⟨rfl, fun envs n => ?_, fun s env he => ?_⟩
  · simp [spawnAndRun, spawn]
  · cases fb <;> simp [sample, he]

/-- Witness for C10: disabled at spawn, no task and no ticks even under
always-enabled per-tick environments; and an enabled-at-spawn task skips a
disabled tick. -/
theorem disabled_at_spawn_no_task_witness :
    spawn false true true true exAttachOk exStats "/usr/bin/krb5kdc" 5 =
      none ∧
    (∀ (envs : Nat → TickEnv) (n : Nat),
      spawnAndRun false true true true exAttachOk exStats "/usr/bin/krb5kdc"
        5 envs n = []) ∧
    (∀ (s : Krb5kdcState) (env : TickEnv), env.enabled = false →
      (sample true s env).2.1 = [] ∧
      (sample true s env).2.2 = Except.ok ()) :=
  disabled_at_spawn_no_task false true true true exAttachOk exStats
    "/usr/bin/krb5kdc" 5 rfl

end Krb5
